import Mathlib

/-!
Verification of the agent_server concurrent dispatch fabric.

Shallow embedding of the Python sources under src/app/ : memory.py,
worker_pool.py, main.py (run orchestrator and gateway events), stt_manager.py,
router_dispatch.py and llm_engine.py.  Each definition is translated directly
from the corresponding Python function; stateful methods are modelled as
explicit state-passing functions, asyncio control flow as traces of emitted
events and actions.
-/

namespace AgentServer

/-! ## Memory (src/app/memory.py) -/

/-- One stored turn: the dict `{"role": ..., "content": ...}` used by
`ThreadWindowMemory`. -/
structure Msg where
  role : String
  content : String
deriving DecidableEq, Repr

/-- The backing store `self._store : Dict[str, List[...]]` of
`ThreadWindowMemory`, modelled as a total map with default `[]`
(matching `dict.get(thread_id, [])` and `dict.setdefault(thread_id, [])`). -/
def Store : Type := String → List Msg

/-- Python truthiness test `not thread_id` for an optional string argument:
true when the value is absent (None) or the empty string. -/
def pyFalsy : Option String → Bool
  | none => true
  | some s => s == ""

/-- Python truthiness `if thread_id:` for an optional string. -/
def pyTruthy (t : Option String) : Bool := !(pyFalsy t)

/-- `ThreadWindowMemory.on_user_message`: no-op when `not thread_id`, else
append `{"role": "user", "content": text}` to the list for that thread. -/
def on_user_message (store : Store) (thread_id : Option String) (text : String) : Store :=
  if pyFalsy thread_id then store
  else fun t => if some t = thread_id then store t ++ [⟨"user", text⟩] else store t

/-- `ThreadWindowMemory.on_assistant_message`: no-op when `not thread_id`, else
append `{"role": "assistant", "content": text}` to the list for that thread. -/
def on_assistant_message (store : Store) (thread_id : Option String) (text : String) : Store :=
  if pyFalsy thread_id then store
  else fun t => if some t = thread_id then store t ++ [⟨"assistant", text⟩] else store t

/-- `_char_budget_from_tokens` from memory.py: `max(64, tokens * 4)`. -/
def char_budget_from_tokens (tokens : Int) : Int := max 64 (tokens * 4)

/-- Python negative-index slice `s[-n:]` for `n > 0`: the last `min n (len s)`
characters of `s`. -/
def strTail (s : String) (n : Nat) : String := ⟨s.data.drop (s.data.length - n)⟩

/-- The f-string `f"{m['role'].upper()}: {m['content']}"`. -/
def msgLine (m : Msg) : String := m.role.toUpper ++ ": " ++ m.content

/-- The transcript `"\n".join(...)` built by `ThreadWindowMemory.preamble`. -/
def transcriptOf (msgs : List Msg) : String :=
  String.intercalate "\n" (msgs.map msgLine)

/-- `ThreadWindowMemory.preamble`: None on an empty thread, else the joined
transcript, trimmed to the tail-most `char_budget` characters when over
budget.  `maxContextTokens` is `self._cfg.max_context_tokens`. -/
def preamble (maxContextTokens : Int) (store : Store) (thread_id : String) : Option String :=
  let msgs := store thread_id
  if msgs.isEmpty then none
  else
    let transcript := transcriptOf msgs
    let budget := char_budget_from_tokens maxContextTokens
    if (transcript.length : Int) ≤ budget then some transcript
    else some (strTail transcript budget.toNat)

/-- The pair (returned value, store after the call) of the `preamble` method:
the Python method reads `self._store` under the lock and never writes it. -/
def preamble_method (maxContextTokens : Int) (store : Store) (thread_id : String) :
    Option String × Store :=
  (preamble maxContextTokens store thread_id, store)

/-! ## Run orchestrator events (src/app/main.py, `_run_text_with_preset_and_mem` / `runner`) -/

/-- Socket.IO events emitted to a browser session by the orchestrator and the
gateway, with the payload fields the code sends (`code` and `runId` are
optional keys on `Error`). -/
inductive Event where
  | RunStarted (runId : String)
  | ChatChunk (runId : String) (chunk : String)
  | ChatDone (runId : String)
  | Interrupted (runId : Option String)
  | Error (code : Option String) (runId : Option String) (message : String)
deriving DecidableEq, Repr

/-- How the awaited `_stream()` coroutine finished inside `runner`: returned
normally, raised `asyncio.TimeoutError` from the `wait_for` wrapper, or raised
some other exception with message `msg`. -/
inductive StreamOutcome where
  | ok
  | timeout
  | exn (msg : String)
deriving DecidableEq, Repr

/-- The events `runner` (main.py lines 438-494) emits to the session after
`RunStarted`: one `ChatChunk` per chunk appended to `assistant_out`, then the
terminal event chosen by the try/except plus the post-stream cancel check.
`cancelAtEnd` is the value of `state.cancel_event.is_set()` at line 473. -/
def runner_events (run_id : String) (chunks : List String) (outcome : StreamOutcome)
    (cancelAtEnd : Bool) (timeout_s : Nat) : List Event :=
  (chunks.map (Event.ChatChunk run_id)) ++
  (match outcome with
   | .ok =>
     if cancelAtEnd then [Event.Interrupted (some run_id)] else [Event.ChatDone run_id]
   | .timeout =>
     [Event.Error none (some run_id) ("Timeout after " ++ toString timeout_s ++ "s")]
   | .exn msg => [Event.Error none (some run_id) msg])

/-- All events of one accepted Run: the `RunStarted` emitted under the session
lock (main.py line 401) followed by the `runner` events. -/
def run_events (run_id : String) (chunks : List String) (outcome : StreamOutcome)
    (cancelAtEnd : Bool) (timeout_s : Nat) : List Event :=
  Event.RunStarted run_id :: runner_events run_id chunks outcome cancelAtEnd timeout_s

/-- Whether an event is a terminal event of the Run with id `rid`
(`ChatDone`, `Interrupted` or `Error` carrying that runId). -/
def isTerminalFor (rid : String) : Event → Bool
  | .ChatDone r => r == rid
  | .Interrupted r => r == some rid
  | .Error _ r _ => r == some rid
  | _ => false

/-- The memory-store effect of `runner`: under `if mem_strategy and thread_id:`
the user turn is recorded before generation (line 451) and the assistant turn
`"".join(assistant_out)` is recorded only on the non-cancelled normal exit
(line 481).  `memOn` is whether `mem_strategy` resolved to a strategy. -/
def runner_store (store : Store) (memOn : Bool) (thread_id : Option String)
    (text : String) (chunks : List String) (outcome : StreamOutcome)
    (cancelAtEnd : Bool) : Store :=
  if memOn && pyTruthy thread_id then
    let s1 := on_user_message store thread_id text
    match outcome with
    | .ok =>
      if cancelAtEnd then s1
      else on_assistant_message s1 thread_id (String.join chunks)
    | .timeout => s1
    | .exn _ => s1
  else store

/-! ## Run acceptance gate (src/app/main.py, `_run_text_with_preset_and_mem`
lines 360-397 up to task creation) -/

/-- The per-session fields the gate reads and writes: whether
`state.current_task` exists and is unfinished, and the cancel flag. -/
structure SessionSt where
  hasActiveTask : Bool
  cancelSet : Bool
deriving DecidableEq, Repr

/-- Result of the acceptance gate: the events emitted to the sid, the session
state afterwards, and whether a new runner task was created. -/
structure GateResult where
  events : List Event
  state : SessionSt
  started : Bool
deriving DecidableEq, Repr

/-- `_run_text_with_preset_and_mem` up to `asyncio.create_task(runner())`:
memory-mode validation, then the BUSY double-check, then cancel reset,
`RunStarted` emission and task creation.  `memoryInitialized` models
`MEMORY is not None`; `memRegistered` models `MEMORY.get(mem_mode)` being
non-None; the sequential model collapses the re-check under the lock with the
first check. -/
def run_text_gate (sessionExists : Bool) (st : SessionSt) (mem_mode : String)
    (memoryInitialized : Bool) (memRegistered : String → Bool)
    (thread_id : Option String) (run_id : String) : GateResult :=
  if !sessionExists then
    ⟨[Event.Error (some "NO_SESSION") none "No session."], st, false⟩
  else if mem_mode != "none" && !memoryInitialized then
    ⟨[Event.Error (some "MEM_DISABLED") none "Memory registry not initialized."], st, false⟩
  else if mem_mode != "none" && !(memRegistered mem_mode) then
    ⟨[Event.Error (some "MEM_UNKNOWN") none ("Unknown memory mode " ++ mem_mode ++ ".")], st, false⟩
  else if mem_mode != "none" && pyFalsy thread_id then
    ⟨[Event.Error (some "MEM_THREAD_REQUIRED") none "thread_id is required for this memory mode."], st, false⟩
  else if st.hasActiveTask then
    ⟨[Event.Error (some "BUSY") none "A run is already active."], st, false⟩
  else
    ⟨[Event.RunStarted run_id], ⟨true, false⟩, true⟩

/-! ## JoinSTT gateway event (src/app/main.py lines 548-605) -/

/-- `_SttSubscription` from main.py. -/
structure SttSub where
  client_id : String
  sid : String
  agent : String
  thread_id : Option String
  stt_url : String
deriving DecidableEq, Repr

/-- Events emitted by the `JoinSTT` handler; error events are identified by
their `code` field (the human-readable message texts are not modelled here). -/
inductive JoinEvent where
  | Err (code : String)
  | STTSubscribed (clientId : String) (sttUrl : String) (agent : String)
deriving DecidableEq, Repr

/-- The Python idiom `(data.get(k) or "")`: absent or falsy values become the
empty string. -/
def pyStrOrEmpty : Option String → String
  | none => ""
  | some s => s

/-- Python `str.strip()`: remove leading and trailing whitespace. -/
def pyStrip (s : String) : String :=
  ⟨((s.data.dropWhile Char.isWhitespace).reverse.dropWhile Char.isWhitespace).reverse⟩

/-- Python `str.lower()`: lowercase every character. -/
def pyLower (s : String) : String := ⟨s.data.map Char.toLower⟩

/-- The Python idiom `x or None` on a stripped string: empty becomes None. -/
def noneIfEmpty (s : String) : Option String :=
  if s == "" then none else some s

/-- Dict assignment `CLIENT_INDEX[cid] = v` (or, with `v = none`,
`CLIENT_INDEX.pop(cid, None)`). -/
def indexSet (index : String → Option SttSub) (cid : String) (v : Option SttSub) :
    String → Option SttSub :=
  fun c => if c = cid then v else index c

/-- The body of the `JoinSTT` handler after the session and payload-shape
checks (main.py lines 566-605).  Inputs: the registered agents as a
name→memory_policy lookup, the four payload fields, the sid, whether
`STT.subscribe` succeeds, and the current `CLIENT_INDEX`.  Output: emitted
events and the new `CLIENT_INDEX`.  Note lines 566-567 of main.py: the
payload sttUrl field is never read and `stt_url` is hardcoded to
`"http://stt_server:2700"`. -/
def joinSTT_validated (agents : String → Option String)
    (payload_clientId payload_agent payload_threadId : Option String)
    (sid : String) (subscribe_ok : Bool) (index : String → Option SttSub) :
    List JoinEvent × (String → Option SttSub) :=
  let stt_url := "http://stt_server:2700"
  let client_id := pyStrip (pyStrOrEmpty payload_clientId)
  let agent_name := pyLower (pyStrip (pyStrOrEmpty payload_agent))
  let thread_id := noneIfEmpty (pyStrip (pyStrOrEmpty payload_threadId))
  if stt_url == "" || client_id == "" || agent_name == "" then
    ([JoinEvent.Err "MISSING_PARAMS"], index)
  else
    match agents agent_name with
    | none => ([JoinEvent.Err "AGENT_INVALID"], index)
    | some policy =>
      let mem_mode := pyLower (pyStrip policy)
      if mem_mode != "none" && mem_mode != "thread_window" then
        ([JoinEvent.Err "MEM_UNKNOWN"], index)
      else if mem_mode != "none" && thread_id == none then
        ([JoinEvent.Err "THREAD_REQUIRED"], index)
      else
        let sub : SttSub := ⟨client_id, sid, agent_name, thread_id, stt_url⟩
        if subscribe_ok then
          ([JoinEvent.STTSubscribed client_id stt_url agent_name],
           indexSet index client_id (some sub))
        else
          ([JoinEvent.Err "STT_CONNECT"], indexSet index client_id none)

/-- The full `JoinSTT` handler (main.py lines 548-605): session check, payload
shape check, then the validated body.  The payload sttUrl field is passed but
unused by the body. -/
def joinSTT (sessionExists : Bool) (isDict : Bool) (agents : String → Option String)
    (payload_sttUrl payload_clientId payload_agent payload_threadId : Option String)
    (sid : String) (subscribe_ok : Bool) (index : String → Option SttSub) :
    List JoinEvent × (String → Option SttSub) :=
  if !sessionExists then ([JoinEvent.Err "NO_SESSION"], index)
  else if !isDict then ([JoinEvent.Err "BAD_REQUEST"], index)
  else joinSTT_validated agents payload_clientId payload_agent payload_threadId
    sid subscribe_ok index

/-! ## STT link reconnect handler (src/app/stt_manager.py, `STTConnection`,
the `connect` event handler at lines 27-37) -/

/-- Observable actions of the per-link `connect` handler, in program order:
setting or clearing the `_connected` event (which releases waiters in
`ensure_connected`) and emitting `subscribe_transcripts` for a client id. -/
inductive LinkAction where
  | setConnected
  | clearConnected
  | emitSubscribe (clientId : String)
deriving DecidableEq, Repr

/-- The action trace of the `connect` handler: `self._connected.set()` first
(line 30), then one `subscribe_transcripts` emit per id in `_wanted_rooms`
(lines 32-34). -/
def connect_handler_actions (wanted_rooms : List String) : List LinkAction :=
  LinkAction.setConnected :: wanted_rooms.map LinkAction.emitSubscribe

/-- The ordering property claimed of the reconnect path: every wanted client
id has its `subscribe_transcripts` emit strictly before the connected flag is
set in the handler trace. -/
def resubscribed_before_ready (wanted_rooms : List String) : Prop :=
  ∀ cid ∈ wanted_rooms, ∃ i j : Nat,
    (connect_handler_actions wanted_rooms).get? i = some (LinkAction.emitSubscribe cid) ∧
    (connect_handler_actions wanted_rooms).get? j = some LinkAction.setConnected ∧
    i < j

/-! ## Worker pool (src/app/worker_pool.py) -/

/-- The pool state: the FIFO `asyncio.Queue` contents and the multiset of
workers currently rented out, both as lists of worker ids. -/
structure PoolState where
  queue : List Nat
  rented : List Nat
deriving DecidableEq, Repr

/-- `WorkerPool.__init__` with `size = n`: workers `0..n-1` all enqueued,
none rented. -/
def initPool (n : Nat) : PoolState := ⟨List.range n, []⟩

/-- `await self._queue.get()` inside `acquire`: removes the FIFO head and
hands it to the renter; suspends (no step) when the queue is empty. -/
def acquire_get (s : PoolState) : Option (Nat × PoolState) :=
  match s.queue with
  | [] => none
  | w :: rest => some (w, ⟨rest, w :: s.rented⟩)

/-- `self._queue.put_nowait(w)` in the `finally` clause of `acquire`:
re-enqueues the worker at the tail and removes it from the rented multiset. -/
def release_put (s : PoolState) (w : Nat) : PoolState :=
  ⟨s.queue ++ [w], s.rented.erase w⟩

/-- How the renter body of the `async with pool.acquire() as w:` scope exits. -/
inductive ExitPath where
  | normal
  | failure
  | cancelled
deriving DecidableEq, Repr

/-- One full `acquire` scope: dequeue a worker, run the body with exit path
`e`, and release in the `finally` clause regardless of `e`.  Returns the
rented worker and the net pool state, or suspends when the pool is empty. -/
def acquire_scoped (s : PoolState) (e : ExitPath) : Option (Nat × PoolState) :=
  match acquire_get s with
  | none => none
  | some (w, s1) =>
    match e with
    | .normal => some (w, release_put s1 w)
    | .failure => some (w, release_put s1 w)
    | .cancelled => some (w, release_put s1 w)

/-- Interleaved executions of many concurrent renters: at any point some task
may complete its `get` (when a worker is available), or any current holder may
run its `finally` release. -/
inductive PoolStep : PoolState → PoolState → Prop
  | acquire (w : Nat) (rest rented : List Nat) :
      PoolStep ⟨w :: rest, rented⟩ ⟨rest, w :: rented⟩
  | release (q rented : List Nat) (w : Nat) (h : w ∈ rented) :
      PoolStep ⟨q, rented⟩ ⟨q ++ [w], rented.erase w⟩

/-- Pool states reachable from a freshly constructed pool of size `n`. -/
def PoolReachable (n : Nat) (s : PoolState) : Prop :=
  Relation.ReflTransGen PoolStep (initPool n) s

/-! ## Engine stream, cancellation flag discipline
(src/app/llm_engine.py, `LlamaCppEngine`) -/

/-- `LlamaCppEngine._sync_stream` delta loop (lines 172-182): for the `i`-th
streamed part, first poll `cancel.is_set()` and break when set, then yield the
delta when non-empty.  `cancel i` is the flag value at iteration `i`. -/
def sync_stream_deltas (cancel : Nat → Bool) : Nat → List String → List String
  | _, [] => []
  | i, p :: rest =>
    if cancel i then []
    else if p == "" then sync_stream_deltas cancel (i + 1) rest
    else p :: sync_stream_deltas cancel (i + 1) rest

/-- `_NEVER_CANCEL` from router_dispatch.py line 9: a `threading.Event()`
created at module load and never `set`, so `is_set()` is false forever. -/
def NEVER_CANCEL : Nat → Bool := fun _ => false

/-- Keyword-only parameter names of `LlamaCppEngine.generate_stream`
(llm_engine.py line 186, signature `generate_stream(self, prompt, *, cancel)`). -/
def generate_stream_kwonly_params : List String := ["cancel"]

/-- Whether the `generate_stream` signature declares a `**kwargs` catch-all:
it does not. -/
def generate_stream_accepts_var_kw : Bool := false

/-- Python keyword-binding check for a call passing one positional argument
(filling `prompt`) plus the keyword arguments `kw_names`: the call binds iff
every keyword name is a declared keyword parameter, unless the callee accepts
`**kwargs`.  A name that fails this check raises `TypeError` at call time. -/
def py_call_kw_ok (kwonly : List String) (var_kw : Bool) (kw_names : List String) : Bool :=
  kw_names.all (fun k => var_kw || kwonly.contains k)

/-- The keyword argument names passed to `worker.engine.generate_stream` by
`_stream` in main.py (lines 455-461); `RouterDispatcher.dispatch` passes the
same four names (router_dispatch.py lines 46-52). -/
def stream_call_kw_names : List String :=
  ["cancel", "system_prompt_path", "sampling_overrides", "preamble"]

/-! ## Router dispatch (src/app/router_dispatch.py, `RouterDispatcher.dispatch`) -/

/-- What `_run` emits as `RouterResult`: the parsed JSON object verbatim, or
the `{"Operation": "ERROR", "Reason": msg}` payload from the except clause. -/
inductive RouterEmit (J : Type) where
  | result (obj : J)
  | errorResult (reason : String)
deriving DecidableEq, Repr

/-- The `_run` coroutine of `RouterDispatcher.dispatch` (lines 40-66):
collects the engine stream consumed with `cancel=_NEVER_CANCEL`, joins and
strips it, parses with `json.loads` (abstracted as `json_loads`), and emits
the object verbatim; any stream exception (`stream_error`) or parse error
lands in the except clause, which emits the ERROR payload. -/
def router_dispatch_run (J : Type) (json_loads : String → Except String J)
    (parts : List String) (stream_error : Option String) : RouterEmit J :=
  match stream_error with
  | some msg => RouterEmit.errorResult msg
  | none =>
    let chunks := sync_stream_deltas NEVER_CANCEL 0 parts
    let full := (String.join chunks).trim
    match json_loads full with
    | Except.error m => RouterEmit.errorResult m
    | Except.ok obj => RouterEmit.result obj

/-! ## Sample values used by witnesses -/

/-- A store with no entries on any thread. -/
def emptyStore : Store := fun _ => []

/-- A store whose thread "T" holds one user turn. -/
def sampleStore : Store := fun t => if t = "T" then [⟨"user", "hi"⟩] else []

/-- An agent registry exposing one agent named "router" with memory policy
"none". -/
def sampleAgents : String → Option String :=
  fun n => if n = "router" then some "none" else none

/-- A CLIENT_INDEX with no subscriptions. -/
def emptyIndex : String → Option SttSub := fun _ => none

/-! ## Helper lemmas -/

theorem string_length_data (s : String) : s.length = s.data.length := rfl

theorem strTail_length (s : String) (n : Nat) :
    (strTail s n).length = s.length - (s.length - n) := by
  show (s.data.drop (s.data.length - n)).length = s.data.length - (s.data.length - n)
  exact List.length_drop _ _

theorem strTail_data_suffix (s : String) (n : Nat) :
    ∃ pre, s.data = pre ++ (strTail s n).data :=
  ⟨s.data.take (s.data.length - n), (List.take_append_drop _ _).symm⟩

theorem char_budget_ge (tokens : Int) : 64 ≤ char_budget_from_tokens tokens :=
  le_max_left _ _

/-! ## Claims -/

/-- C7.  For every thread_id, `preamble` returns none when the thread has no
entries; otherwise it returns some string that is a suffix (tail) of the
newline-joined "ROLE: content" transcript, equals the whole transcript when
the transcript is within the character budget `max(64, max_context_tokens * 4)`,
has length exactly the budget when the transcript exceeds it, and in all
cases has length at most the budget. -/
theorem preamble_budget_spec (tokens : Int) (store : Store) (tid : String) :
    (store tid = [] → preamble tokens store tid = none) ∧
    (store tid ≠ [] →
      ∃ out, preamble tokens store tid = some out ∧
        (out.length : Int) ≤ char_budget_from_tokens tokens ∧
        (∃ pre, (transcriptOf (store tid)).data = pre ++ out.data) ∧
        (((transcriptOf (store tid)).length : Int) ≤ char_budget_from_tokens tokens →
          out = transcriptOf (store tid)) ∧
        (¬ ((transcriptOf (store tid)).length : Int) ≤ char_budget_from_tokens tokens →
          (out.length : Int) = char_budget_from_tokens tokens)) := by
  constructor
  · intro h
    simp [preamble, h]
  · intro h
    have hb64 : (64 : Int) ≤ char_budget_from_tokens tokens := char_budget_ge tokens
    have hbnn : (0 : Int) ≤ char_budget_from_tokens tokens := by omega
    have hbtn : ((char_budget_from_tokens tokens).toNat : Int) = char_budget_from_tokens tokens :=
      Int.toNat_of_nonneg hbnn
    have hne : (store tid).isEmpty = false := by
      cases hst : store tid with
      | nil => exact absurd hst h
      | cons a l => rfl
    by_cases hlen :
        ((transcriptOf (store tid)).length : Int) ≤ char_budget_from_tokens tokens
    · refine ⟨transcriptOf (store tid), ?_, hlen, ⟨[], rfl⟩, fun _ => rfl, fun hc => absurd hlen hc⟩
      simp [preamble, hne, hlen]
    · refine ⟨strTail (transcriptOf (store tid)) (char_budget_from_tokens tokens).toNat,
        ?_, ?_, strTail_data_suffix _ _, fun hc => absurd hc hlen, fun _ => ?_⟩
      · simp [preamble, hne, hlen]
      · rw [strTail_length]
        omega
      · rw [strTail_length]
        omega

/-- C7 witness: evaluating `preamble` on an empty store and on a one-turn
store at concrete inputs. -/
theorem preamble_budget_spec_witness :
    preamble 16 emptyStore "T" = none ∧
    ∃ out, preamble 16 sampleStore "T" = some out ∧
      (out.length : Int) ≤ char_budget_from_tokens 16 := by
  refine ⟨(preamble_budget_spec 16 emptyStore "T").1 rfl, ?_⟩
  obtain ⟨out, h1, h2, _⟩ :=
    (preamble_budget_spec 16 sampleStore "T").2 (by simp [sampleStore])
  exact ⟨out, h1, h2⟩

/-- C10.  The memory message hooks are silent no-ops when the thread id is
missing or empty; for any thread id the store is append-only (every thread
list after a call extends the old list by a suffix, so nothing is removed,
truncated or reordered); and the `preamble` method never modifies the store
(its trimming applies only to the returned string). -/
theorem memory_store_append_only (store : Store) (thread_id : Option String) (text : String) :
    (pyFalsy thread_id = true →
      on_user_message store thread_id text = store ∧
      on_assistant_message store thread_id text = store) ∧
    (∀ t, ∃ suf, on_user_message store thread_id text t = store t ++ suf) ∧
    (∀ t, ∃ suf, on_assistant_message store thread_id text t = store t ++ suf) ∧
    (∀ tokens tid, (preamble_method tokens store tid).2 = store) := by
  refine ⟨fun h => ⟨?_, ?_⟩, fun t => ?_, fun t => ?_, fun tokens tid => rfl⟩
  · simp [on_user_message, h]
  · simp [on_assistant_message, h]
  · by_cases h : pyFalsy thread_id = true
    · exact ⟨[], by simp [on_user_message, h]⟩
    · by_cases ht : some t = thread_id
      · exact ⟨[⟨"user", text⟩], by simp [on_user_message, h, ht]⟩
      · exact ⟨[], by simp [on_user_message, h, ht]⟩
  · by_cases h : pyFalsy thread_id = true
    · exact ⟨[], by simp [on_assistant_message, h]⟩
    · by_cases ht : some t = thread_id
      · exact ⟨[⟨"assistant", text⟩], by simp [on_assistant_message, h, ht]⟩
      · exact ⟨[], by simp [on_assistant_message, h, ht]⟩

/-- C10 witness: the no-op on an empty thread id and the append on a concrete
thread id, evaluated on a sample store. -/
theorem memory_store_append_only_witness :
    on_user_message sampleStore (some "") "x" = sampleStore ∧
    ∃ suf, on_user_message sampleStore (some "T") "x" "T" = sampleStore "T" ++ suf :=
  ⟨((memory_store_append_only sampleStore (some "") "x").1 rfl).1,
   (memory_store_append_only sampleStore (some "T") "x").2.1 "T"⟩

theorem countP_terminal_chunks (rid : String) (chunks : List String) :
    (chunks.map (Event.ChatChunk rid)).countP (isTerminalFor rid) = 0 := by
  induction chunks with
  | nil => rfl
  | cons c l ih => simp [List.countP_cons, isTerminalFor, ih]

theorem on_user_message_at (s : Store) (tid : String) (txt : String) (h : tid ≠ "")
    (t : String) :
    on_user_message s (some tid) txt t
      = if t = tid then s t ++ [⟨"user", txt⟩] else s t := by
  have hf : pyFalsy (some tid) = false := by simp [pyFalsy, h]
  simp [on_user_message, hf]

theorem on_assistant_message_at (s : Store) (tid : String) (txt : String) (h : tid ≠ "")
    (t : String) :
    on_assistant_message s (some tid) txt t
      = if t = tid then s t ++ [⟨"assistant", txt⟩] else s t := by
  have hf : pyFalsy (some tid) = false := by simp [pyFalsy, h]
  simp [on_assistant_message, hf]

/-- C2.  Every Run emits `RunStarted`, then one `ChatChunk` per generated
chunk in generation order, then exactly one terminal event among `ChatDone`,
`Interrupted` and `Error`; on timeout the terminal event is an `Error`; no Run
emits two terminal events or none. -/
theorem run_event_order (rid : String) (chunks : List String) (outcome : StreamOutcome)
    (cancelAtEnd : Bool) (ts : Nat) :
    ∃ term : Event,
      run_events rid chunks outcome cancelAtEnd ts
        = Event.RunStarted rid :: (chunks.map (Event.ChatChunk rid) ++ [term]) ∧
      isTerminalFor rid term = true ∧
      (run_events rid chunks outcome cancelAtEnd ts).countP (isTerminalFor rid) = 1 ∧
      (outcome = StreamOutcome.timeout →
        ∃ msg, term = Event.Error none (some rid) msg) := by
  have hchunks := countP_terminal_chunks rid chunks
  cases outcome with
  | ok =>
    cases cancelAtEnd with
    | false =>
      refine ⟨Event.ChatDone rid, ?_, ?_, ?_, ?_⟩
      · simp [run_events, runner_events]
      · simp [isTerminalFor]
      · simp [run_events, runner_events, List.countP_cons, List.countP_append,
          isTerminalFor, hchunks]
      · intro h; cases h
    | true =>
      refine ⟨Event.Interrupted (some rid), ?_, ?_, ?_, ?_⟩
      · simp [run_events, runner_events]
      · simp [isTerminalFor]
      · simp [run_events, runner_events, List.countP_cons, List.countP_append,
          isTerminalFor, hchunks]
      · intro h; cases h
  | timeout =>
    refine ⟨Event.Error none (some rid) ("Timeout after " ++ toString ts ++ "s"),
      ?_, ?_, ?_, fun _ => ⟨_, rfl⟩⟩
    · simp [run_events, runner_events]
    · simp [isTerminalFor]
    · simp [run_events, runner_events, List.countP_cons, List.countP_append,
        isTerminalFor, hchunks]
  | exn msg =>
    refine ⟨Event.Error none (some rid) msg, ?_, ?_, ?_, ?_⟩
    · simp [run_events, runner_events]
    · simp [isTerminalFor]
    · simp [run_events, runner_events, List.countP_cons, List.countP_append,
        isTerminalFor, hchunks]
    · intro h; cases h

/-- C2 witness: a timed-out Run with two chunks, evaluated concretely. -/
theorem run_event_order_witness :
    ∃ term : Event,
      run_events "r1" ["a", "b"] StreamOutcome.timeout false 5
        = Event.RunStarted "r1" :: (["a", "b"].map (Event.ChatChunk "r1") ++ [term]) ∧
      isTerminalFor "r1" term = true ∧
      ∃ msg, term = Event.Error none (some "r1") msg := by
  obtain ⟨term, h1, h2, _, h4⟩ :=
    run_event_order "r1" ["a", "b"] StreamOutcome.timeout false 5
  exact ⟨term, h1, h2, h4 rfl⟩

/-- C4.  For a Run with memory enabled on thread `tid`: when the Run emits
`ChatDone`, the store afterwards holds the old thread content followed by the
user turn immediately followed by the assistant turn (the concatenation of all
emitted chunks); when the Run ends in `Interrupted` or `Error` (which covers
timeout), only the user turn was recorded. -/
theorem run_memory_discipline (store : Store) (tid : String) (text : String)
    (chunks : List String) (outcome : StreamOutcome) (cancelAtEnd : Bool)
    (ts : Nat) (rid : String) (htid : tid ≠ "") :
    (Event.ChatDone rid ∈ run_events rid chunks outcome cancelAtEnd ts →
      runner_store store true (some tid) text chunks outcome cancelAtEnd tid
        = store tid ++ [⟨"user", text⟩, ⟨"assistant", String.join chunks⟩]) ∧
    ((Event.Interrupted (some rid) ∈ run_events rid chunks outcome cancelAtEnd ts ∨
      ∃ msg, Event.Error none (some rid) msg ∈ run_events rid chunks outcome cancelAtEnd ts) →
      runner_store store true (some tid) text chunks outcome cancelAtEnd tid
        = store tid ++ [⟨"user", text⟩]) := by
  have hf : pyFalsy (some tid) = false := by simp [pyFalsy, htid]
  have htr : pyTruthy (some tid) = true := by simp [pyTruthy, hf]
  constructor
  · intro hmem
    cases outcome with
    | ok =>
      cases cancelAtEnd with
      | false =>
        have hrs : runner_store store true (some tid) text chunks StreamOutcome.ok false
            = on_assistant_message (on_user_message store (some tid) text) (some tid)
                (String.join chunks) := by
          simp [runner_store, htr]
        rw [hrs, on_assistant_message_at _ _ _ htid, on_user_message_at _ _ _ htid]
        simp
      | true => simp [run_events, runner_events] at hmem
    | timeout => simp [run_events, runner_events] at hmem
    | exn msg => simp [run_events, runner_events] at hmem
  · intro hmem
    cases outcome with
    | ok =>
      cases cancelAtEnd with
      | true =>
        have hrs : runner_store store true (some tid) text chunks StreamOutcome.ok true
            = on_user_message store (some tid) text := by
          simp [runner_store, htr]
        rw [hrs, on_user_message_at _ _ _ htid]
        simp
      | false =>
        rcases hmem with h | ⟨m, h⟩ <;> simp [run_events, runner_events] at h
    | timeout =>
      have hrs : runner_store store true (some tid) text chunks StreamOutcome.timeout cancelAtEnd
          = on_user_message store (some tid) text := by
        simp [runner_store, htr]
      rw [hrs, on_user_message_at _ _ _ htid]
      simp
    | exn msg =>
      have hrs : runner_store store true (some tid) text chunks (StreamOutcome.exn msg) cancelAtEnd
          = on_user_message store (some tid) text := by
        simp [runner_store, htr]
      rw [hrs, on_user_message_at _ _ _ htid]
      simp

/-- C4 witness: a completed Run and an interrupted Run on thread "T",
evaluated concretely. -/
theorem run_memory_discipline_witness :
    runner_store emptyStore true (some "T") "hi" ["a", "b"] StreamOutcome.ok false "T"
      = emptyStore "T" ++ [⟨"user", "hi"⟩, ⟨"assistant", String.join ["a", "b"]⟩] ∧
    runner_store emptyStore true (some "T") "hi" ["a"] StreamOutcome.ok true "T"
      = emptyStore "T" ++ [⟨"user", "hi"⟩] :=
  ⟨(run_memory_discipline emptyStore "T" "hi" ["a", "b"] StreamOutcome.ok false 0 "r1"
      (by decide)).1 (by decide),
   (run_memory_discipline emptyStore "T" "hi" ["a"] StreamOutcome.ok true 0 "r1"
      (by decide)).2 (Or.inl (by decide))⟩

/-- C1 evaluation.  The call that every Run makes (and that the router
dispatcher also makes) passes the keyword arguments `system_prompt_path`,
`sampling_overrides` and `preamble`, but the `generate_stream` signature in
llm_engine.py declares only `cancel` as keyword parameter and no `**kwargs`,
so the keyword-binding check fails and the call raises `TypeError`; a call
passing only `cancel` would bind. -/
theorem generate_stream_call_mismatch :
    py_call_kw_ok generate_stream_kwonly_params generate_stream_accepts_var_kw
      stream_call_kw_names = false ∧
    generate_stream_kwonly_params.contains "system_prompt_path" = false ∧
    generate_stream_kwonly_params.contains "sampling_overrides" = false ∧
    generate_stream_kwonly_params.contains "preamble" = false ∧
    py_call_kw_ok generate_stream_kwonly_params generate_stream_accepts_var_kw
      ["cancel"] = true := by
  decide

/-- C3.  While a Run is active on a session, a second run request on that
session never starts a task and never changes the session state, and when the
request passes memory validation it is rejected with exactly one Error event
carrying code BUSY. -/
theorem busy_rejection (st : SessionSt) (mem_mode : String) (memInit : Bool)
    (memReg : String → Bool) (thread_id : Option String) (rid : String)
    (hactive : st.hasActiveTask = true) :
    (run_text_gate true st mem_mode memInit memReg thread_id rid).started = false ∧
    (run_text_gate true st mem_mode memInit memReg thread_id rid).state = st ∧
    ((mem_mode = "none" ∨
        (memInit = true ∧ memReg mem_mode = true ∧ pyFalsy thread_id = false)) →
      run_text_gate true st mem_mode memInit memReg thread_id rid
        = ⟨[Event.Error (some "BUSY") none "A run is already active."], st, false⟩) := by
  refine ⟨?_, ?_, ?_⟩
  · simp only [run_text_gate]
    split_ifs <;> simp_all
  · simp only [run_text_gate]
    split_ifs <;> simp_all
  · rintro (h | ⟨hi, hr, ht⟩)
    · subst h
      simp [run_text_gate, hactive]
    · simp [run_text_gate, hactive, hi, hr, ht]

/-- C3 witness: a busy session rejecting a memory-free request, evaluated
concretely. -/
theorem busy_rejection_witness :
    run_text_gate true ⟨true, false⟩ "none" false (fun _ => false) none "r9"
      = ⟨[Event.Error (some "BUSY") none "A run is already active."], ⟨true, false⟩, false⟩ :=
  (busy_rejection ⟨true, false⟩ "none" false (fun _ => false) none "r9" rfl).2.2 (Or.inl rfl)

theorem pool_reachable_perm (n : Nat) (s : PoolState) (h : PoolReachable n s) :
    (s.queue ++ s.rented).Perm (List.range n) := by
  induction h with
  | refl => simp [initPool]
  | tail hab hbc ih =>
    cases hbc with
    | acquire w rest rented =>
      exact List.Perm.trans List.perm_middle ih
    | release q rented w hw =>
      refine List.Perm.trans ?_ ih
      have h1 : (q ++ [w]) ++ rented.erase w = q ++ (w :: rented.erase w) := by
        simp
      rw [h1]
      exact List.Perm.append_left q (List.perm_cons_erase hw).symm

/-- C8.  In every pool state reachable by interleaved acquires and releases
from a fresh pool of size n, at most n workers are outside the queue and no
worker is rented twice; moreover a full acquire scope always re-enqueues the
rented worker with no net change to the pool contents, identically on every
exit path (normal return, failure, cancellation). -/
theorem worker_pool_safety (n : Nat) (s : PoolState) (h : PoolReachable n s) :
    s.rented.length ≤ n ∧ s.rented.Nodup ∧
    (∀ e w s2, acquire_scoped s e = some (w, s2) →
      s2.rented = s.rented ∧ s2.queue.Perm s.queue ∧ w ∈ s2.queue) ∧
    (∀ e e2, acquire_scoped s e = acquire_scoped s e2) := by
  have hperm := pool_reachable_perm n s h
  have hlen : s.queue.length + s.rented.length = n := by
    have := hperm.length_eq
    simpa using this
  have hnd : (s.queue ++ s.rented).Nodup :=
    hperm.nodup_iff.mpr (List.nodup_range n)
  refine ⟨by omega, hnd.of_append_right, ?_, ?_⟩
  · intro e w s2 hc
    cases hq : s.queue with
    | nil => simp [acquire_scoped, acquire_get, hq] at hc
    | cons w0 rest =>
      have hval : acquire_scoped s e
          = some (w0, ⟨rest ++ [w0], (w0 :: s.rented).erase w0⟩) := by
        cases e <;> simp [acquire_scoped, acquire_get, release_put, hq]
      rw [hval] at hc
      injection hc with h1
      injection h1 with hw hs
      subst hw
      subst hs
      refine ⟨by simp, ?_, by simp⟩
      show (rest ++ [w0]).Perm (w0 :: rest)
      exact List.perm_append_singleton w0 rest
  · intro e e2
    cases hq : s.queue with
    | nil => cases e <;> cases e2 <;> simp [acquire_scoped, acquire_get, hq]
    | cons w0 rest => cases e <;> cases e2 <;> simp [acquire_scoped, acquire_get, hq]

/-- C8 witness: a fresh pool of size 2 and one scoped acquire that fails,
evaluated concretely. -/
theorem worker_pool_safety_witness :
    (initPool 2).rented.length ≤ 2 ∧ (initPool 2).rented.Nodup ∧
    ((acquire_scoped (initPool 2) ExitPath.failure = some (0, ⟨[1, 0], []⟩)) ∧
      (⟨[1, 0], []⟩ : PoolState).rented = (initPool 2).rented) := by
  obtain ⟨h1, h2, h3, _⟩ := worker_pool_safety 2 (initPool 2) Relation.ReflTransGen.refl
  refine ⟨h1, h2, by decide, (h3 ExitPath.failure 0 ⟨[1, 0], []⟩ (by decide)).1⟩

theorem sync_stream_never_cancel (parts : List String) (i : Nat) :
    sync_stream_deltas NEVER_CANCEL i parts = parts.filter (fun p => !(p == "")) := by
  induction parts generalizing i with
  | nil => rfl
  | cons p rest ih =>
    by_cases hp : p = ""
    · subst hp
      simp [sync_stream_deltas, NEVER_CANCEL, ih]
    · simp [sync_stream_deltas, NEVER_CANCEL, hp, ih]

/-- C9.  The router run consumes the engine stream under a cancel flag that is
false at every instant, so it collects every non-empty delta with no
truncation (in particular the session cancel flag plays no role); on success
the parsed JSON object is emitted verbatim as the RouterResult, and on a
stream failure or a parse failure the ERROR payload with the failure message
is emitted instead. -/
theorem router_dispatch_spec (J : Type) (json_loads : String → Except String J)
    (parts : List String) (stream_error : Option String) :
    (∀ i, NEVER_CANCEL i = false) ∧
    sync_stream_deltas NEVER_CANCEL 0 parts = parts.filter (fun p => !(p == "")) ∧
    (∀ obj, stream_error = none →
      json_loads ((String.join (sync_stream_deltas NEVER_CANCEL 0 parts)).trim)
        = Except.ok obj →
      router_dispatch_run J json_loads parts stream_error = RouterEmit.result obj) ∧
    (∀ msg, stream_error = some msg →
      router_dispatch_run J json_loads parts stream_error
        = RouterEmit.errorResult msg) ∧
    (∀ msg, stream_error = none →
      json_loads ((String.join (sync_stream_deltas NEVER_CANCEL 0 parts)).trim)
        = Except.error msg →
      router_dispatch_run J json_loads parts stream_error
        = RouterEmit.errorResult msg) := by
  refine ⟨fun i => rfl, sync_stream_never_cancel parts 0, ?_, ?_, ?_⟩
  · intro obj he hp
    subst he
    simp [router_dispatch_run, hp]
  · intro msg he
    subst he
    simp [router_dispatch_run]
  · intro msg he hp
    subst he
    simp [router_dispatch_run, hp]

/-- C9 witness: a concrete router run whose stream yields "7" plus an empty
delta and whose parse succeeds. -/
theorem router_dispatch_spec_witness :
    router_dispatch_run Nat (fun _ => Except.ok 7) ["7", ""] none
      = RouterEmit.result 7 :=
  (router_dispatch_spec Nat (fun _ => Except.ok 7) ["7", ""] none).2.2.1 7 rfl rfl

/-- C5 counterexample.  With one wanted room "c1", the reconnect handler
trace is [setConnected, emitSubscribe "c1"]: the subscribe_transcripts emit
for "c1" does not occur before the connected flag is set, so the claimed
before-ready ordering fails on the code. -/
theorem connect_ready_before_resubscribe_cex :
    ¬ resubscribed_before_ready ["c1"] := by
  intro h
  obtain ⟨i, j, hi, hj, hij⟩ := h "c1" (by simp)
  rcases i with _ | _ | i
  · simp [connect_handler_actions] at hi
  · rcases j with _ | _ | j
    · omega
    · simp [connect_handler_actions] at hj
    · simp [connect_handler_actions] at hj
  · simp [connect_handler_actions] at hi

/-- C5 amended.  On every reconnect the handler re-sends subscribe_transcripts
once per client_id in the wanted set (in order), but only after setting the
connected flag: the trace starts with setConnected, every wanted client id is
re-subscribed in it, and each id is emitted as many times as it occurs in the
wanted set. -/
theorem connect_resubscribes_after_ready (wanted : List String) :
    connect_handler_actions wanted
      = LinkAction.setConnected :: wanted.map LinkAction.emitSubscribe ∧
    (∀ cid ∈ wanted, LinkAction.emitSubscribe cid ∈ connect_handler_actions wanted) ∧
    (connect_handler_actions wanted).head? = some LinkAction.setConnected ∧
    (∀ cid, (connect_handler_actions wanted).count (LinkAction.emitSubscribe cid)
      = wanted.count cid) := by
  refine ⟨rfl, ?_, rfl, ?_⟩
  · intro cid hc
    exact List.mem_cons_of_mem _ (List.mem_map_of_mem _ hc)
  · intro cid
    show (LinkAction.setConnected :: wanted.map LinkAction.emitSubscribe).count
        (LinkAction.emitSubscribe cid) = wanted.count cid
    rw [List.count_cons_of_ne (by simp)]
    exact List.count_map_of_injective wanted LinkAction.emitSubscribe
      (fun a b hab => by injection hab) cid

/-- C5 amended witness: two wanted rooms, evaluated concretely. -/
theorem connect_resubscribes_after_ready_witness :
    LinkAction.emitSubscribe "c1" ∈ connect_handler_actions ["c1", "c2"] ∧
    (connect_handler_actions ["c1", "c2"]).count (LinkAction.emitSubscribe "c1") = 1 := by
  refine ⟨(connect_resubscribes_after_ready ["c1", "c2"]).2.1 "c1" (by decide), ?_⟩
  rw [(connect_resubscribes_after_ready ["c1", "c2"]).2.2.2 "c1"]
  decide

/-- C6 counterexample.  A JoinSTT payload supplying sttUrl
"http://localhost:2700" is accepted but the stored subscription records the
hardcoded URL "http://stt_server:2700" instead of the supplied value; and a
payload with no sttUrl at all is accepted with STTSubscribed rather than
rejected with MISSING_PARAMS. -/
theorem joinSTT_url_cex :
    (joinSTT true true sampleAgents (some "http://localhost:2700") (some "cli-1")
        (some "router") none "sid-1" true emptyIndex).2 "cli-1"
      = some ⟨"cli-1", "sid-1", "router", none, "http://stt_server:2700"⟩ ∧
    ("http://stt_server:2700" : String) ≠ "http://localhost:2700" ∧
    (joinSTT true true sampleAgents none (some "cli-1") (some "router") none "sid-1" true
        emptyIndex).1
      = [JoinEvent.STTSubscribed "cli-1" "http://stt_server:2700" "router"] := by
  refine ⟨by decide, by decide, by decide⟩

/-- C6 amended.  The JoinSTT handler never reads the payload sttUrl: its
result is unchanged if that field is replaced by anything else; every
subscription it adds to CLIENT_INDEX records the hardcoded upstream URL
"http://stt_server:2700"; and a payload whose clientId or agent is missing or
empty is rejected with MISSING_PARAMS leaving the index unchanged (a missing
sttUrl alone is not rejected). -/
theorem joinSTT_amended (agents : String → Option String)
    (pUrl pCid pAgent pTid : Option String) (sid : String) (sub_ok : Bool)
    (index : String → Option SttSub) :
    (∀ other, joinSTT true true agents pUrl pCid pAgent pTid sid sub_ok index
      = joinSTT true true agents other pCid pAgent pTid sid sub_ok index) ∧
    (∀ c sub,
      (joinSTT true true agents pUrl pCid pAgent pTid sid sub_ok index).2 c = some sub →
      index c = some sub ∨ sub.stt_url = "http://stt_server:2700") ∧
    (pyStrip (pyStrOrEmpty pCid) = "" ∨ pyLower (pyStrip (pyStrOrEmpty pAgent)) = "" →
      joinSTT true true agents pUrl pCid pAgent pTid sid sub_ok index
        = ([JoinEvent.Err "MISSING_PARAMS"], index)) := by
  refine ⟨fun other => rfl, ?_, ?_⟩
  · intro c sub h
    have hbody :
        (joinSTT true true agents pUrl pCid pAgent pTid sid sub_ok index).2
          = (joinSTT_validated agents pCid pAgent pTid sid sub_ok index).2 := rfl
    rw [hbody] at h
    unfold joinSTT_validated at h
    by_cases hmp : ("http://stt_server:2700" == "" || pyStrip (pyStrOrEmpty pCid) == ""
        || pyLower (pyStrip (pyStrOrEmpty pAgent)) == "") = true
    · rw [if_pos hmp] at h
      exact Or.inl h
    · rw [if_neg hmp] at h
      cases hag : agents (pyLower (pyStrip (pyStrOrEmpty pAgent))) with
      | none =>
        rw [hag] at h
        exact Or.inl h
      | some policy =>
        rw [hag] at h
        dsimp only at h
        by_cases hmm : (pyLower (pyStrip policy) != "none"
            && pyLower (pyStrip policy) != "thread_window") = true
        · rw [if_pos hmm] at h
          exact Or.inl h
        · rw [if_neg hmm] at h
          by_cases htr : (pyLower (pyStrip policy) != "none"
              && noneIfEmpty (pyStrip (pyStrOrEmpty pTid)) == none) = true
          · rw [if_pos htr] at h
            exact Or.inl h
          · rw [if_neg htr] at h
            cases sub_ok with
            | true =>
              rw [if_pos (show (true : Bool) = true from rfl)] at h
              dsimp only at h
              unfold indexSet at h
              by_cases hc : c = pyStrip (pyStrOrEmpty pCid)
              · rw [if_pos hc] at h
                exact Or.inr (Option.some.inj h ▸ rfl)
              · rw [if_neg hc] at h
                exact Or.inl h
            | false =>
              rw [if_neg (show ¬ (false : Bool) = true by simp)] at h
              dsimp only at h
              unfold indexSet at h
              by_cases hc : c = pyStrip (pyStrOrEmpty pCid)
              · rw [if_pos hc] at h
                cases h
              · rw [if_neg hc] at h
                exact Or.inl h
  · intro hmiss
    have hbody : joinSTT true true agents pUrl pCid pAgent pTid sid sub_ok index
        = joinSTT_validated agents pCid pAgent pTid sid sub_ok index := rfl
    rw [hbody]
    unfold joinSTT_validated
    rcases hmiss with hm | hm <;>
      simp [hm]

/-- C6 amended witness: a payload with no clientId is rejected with
MISSING_PARAMS, and the payload sttUrl never affects the result, both
evaluated concretely. -/
theorem joinSTT_amended_witness :
    joinSTT true true sampleAgents (some "u") none (some "router") none "s" true emptyIndex
      = ([JoinEvent.Err "MISSING_PARAMS"], emptyIndex) ∧
    joinSTT true true sampleAgents (some "u") (some "c") (some "router") none "s" true
        emptyIndex
      = joinSTT true true sampleAgents none (some "c") (some "router") none "s" true
        emptyIndex := by
  refine ⟨?_, (joinSTT_amended sampleAgents (some "u") (some "c") (some "router") none "s"
    true emptyIndex).1 none⟩
  exact (joinSTT_amended sampleAgents (some "u") none (some "router") none "s" true
    emptyIndex).2.2 (Or.inl (by decide : pyStrip (pyStrOrEmpty none) = ""))

end AgentServer
